import Mathlib

/-!
Verification of the NETRA per-session processing pipeline.

This file gives a shallow embedding of the pipeline's core components —
the visual tracker, the speech gate, the task state machine, the durable
task store, the persistent object-history log, and the single-slot frame
mailbox with its consumer loop — and proves or refutes the specified
properties about them.  Machine real numbers are modelled as exact
rationals, wall-clock time is passed explicitly as a rational parameter,
and Python dicts are modelled as association lists preserving insertion
order.
-/

namespace Netra

/-- Python `int(x)` applied to a rational: truncation toward zero. -/
def pyInt (q : ℚ) : Int :=
  if 0 ≤ q.num then Int.ofNat (q.num.toNat / q.den) else - Int.ofNat ((-q.num).toNat / q.den)

/-- ASCII lower-casing of one character. -/
def lowerChar (c : Char) : Char :=
  if 65 ≤ c.toNat ∧ c.toNat ≤ 90 then Char.ofNat (c.toNat + 32) else c

/-- Python `str.lower()`, character-wise (all names in this code base are
ASCII). -/
def pyLower (s : String) : String := String.mk (s.data.map lowerChar)

/-- Python `str.strip()`: drop leading and trailing whitespace. -/
def pyStrip (s : String) : String :=
  String.mk (((s.data.dropWhile Char.isWhitespace).reverse.dropWhile
    Char.isWhitespace).reverse)

/-- Accumulator for `pyWords`: collect maximal non-whitespace runs. -/
def wordsAux : List Char → List Char → List String
  | [], acc => if acc.isEmpty then [] else [String.mk acc.reverse]
  | c :: rest, acc =>
    if c.isWhitespace then
      if acc.isEmpty then wordsAux rest [] else String.mk acc.reverse :: wordsAux rest []
    else wordsAux rest (c :: acc)

/-- Python `str.split()` with no argument: split on whitespace runs,
producing no empty pieces. -/
def pyWords (s : String) : List String := wordsAux s.data []

/-- Python `" ".join(words)`. -/
def joinSpace : List String → String
  | [] => ""
  | [w] => w
  | w :: rest => w ++ " " ++ joinSpace rest

/-- Ordered-dict lookup on an association list (Python `key in dict` / `dict[key]`). -/
def lookupAssoc {α : Type} (k : String) : List (String × α) → Option α
  | [] => none
  | p :: rest => if p.1 = k then some p.2 else lookupAssoc k rest

/-- Ordered-dict in-place value update (`dict[key].mutate()`): keeps insertion order. -/
def updateAssoc {α : Type} (k : String) (f : α → α) (l : List (String × α)) :
    List (String × α) :=
  l.map fun p => if p.1 = k then (p.1, f p.2) else p

/-- Ordered-dict assignment `dict[key] = v`: overwrite if present, else append. -/
def setAssoc {α : Type} (l : List (String × α)) (k : String) (v : α) : List (String × α) :=
  if l.any fun p => p.1 = k then l.map (fun p => if p.1 = k then (p.1, v) else p)
  else l ++ [(k, v)]

/-- `TrackedObject` from `app/models.py`: a visually tracked object with
smoothed spatial data. -/
structure TrackedObject where
  name : String
  category : String
  confidence : ℚ
  raw_distance : ℚ
  raw_direction : String
  distance : ℚ
  direction : String
  last_seen : ℚ
  frames_detected : Nat
  is_stable : Bool
deriving DecidableEq, Repr

/-- `TrackedObject.update` (models.py 48-74): stamps `last_seen`, increments the
frame counter, replaces the raw values, applies the 0.7/0.3 weighted average to
the smoothed distance, and marks the object stable once the counter reaches 2.
The wall-clock reading `time.time()` is the explicit `now` argument. -/
def TrackedObject.update (o : TrackedObject) (now : ℚ) (new_dist : ℚ) (new_dir : String)
    (new_conf : ℚ) : TrackedObject :=
  { o with
    last_seen := now
    frames_detected := o.frames_detected + 1
    raw_distance := new_dist
    raw_direction := new_dir
    confidence := new_conf
    distance := o.distance * (7/10 : ℚ) + new_dist * (3/10 : ℚ)
    direction := new_dir
    is_stable := if 2 ≤ o.frames_detected + 1 then true else o.is_stable }

/-- One raw detection dict handed to the tracker.  `none` fields model missing
dict keys, resolved by the `dict.get` defaults at the use sites. -/
structure Detection where
  name : String
  confidence_score : Option ℚ
  distance : Option ℚ
  direction : Option String
  category : Option String
deriving DecidableEq, Repr

/-- `VisualTracker` from `app/services/tracking.py`. -/
structure VisualTracker where
  tracked_objects : List (String × TrackedObject)
  confidence_threshold : ℚ
  persistence_frames : Nat
  timeout : ℚ
deriving DecidableEq, Repr

/-- A tracker with the constructor's default arguments
(threshold 75, persistence 2, timeout 2.0) and no tracked objects. -/
def VisualTracker.init : VisualTracker :=
  { tracked_objects := [], confidence_threshold := 75, persistence_frames := 2, timeout := 2 }

/-- The body of the update/create loop of `process_detections`
(tracking.py 50-81) applied to one detection dict. -/
def applyDet (now : ℚ) (threshold : ℚ) (objs : List (String × TrackedObject))
    (det : Detection) : List (String × TrackedObject) :=
  let confidence := det.confidence_score.getD 100
  if det.name = "" ∨ confidence < threshold then objs
  else
    let key := pyLower det.name
    let dist := det.distance.getD 0
    let dir := det.direction.getD "ahead"
    let cat := det.category.getD "unknown"
    match lookupAssoc key objs with
    | some _ => updateAssoc key (fun o => o.update now dist dir confidence) objs
    | none =>
      objs ++ [(key,
        { name := det.name, category := cat, confidence := confidence,
          raw_distance := dist, raw_direction := dir, distance := dist,
          direction := dir, last_seen := now, frames_detected := 1,
          is_stable := false })]

/-- `VisualTracker.process_detections` (tracking.py 30-87): prune expired
entries, fold the detection list through the update/create loop, and return
the new tracker together with the stable objects. -/
def VisualTracker.process_detections (t : VisualTracker) (now : ℚ) (dets : List Detection) :
    VisualTracker × List TrackedObject :=
  let pruned := t.tracked_objects.filter fun p => now - p.2.last_seen < t.timeout
  let updated := dets.foldl (applyDet now t.confidence_threshold) pruned
  ({ t with tracked_objects := updated },
    (updated.map Prod.snd).filter fun o => o.is_stable)

/-- A sequence of ingest calls: each step is a wall-clock reading paired with a
raw detection list. -/
def runTracker (t : VisualTracker) : List (ℚ × List Detection) → VisualTracker
  | [] => t
  | s :: rest => runTracker (t.process_detections s.1 s.2).1 rest

/-- The adjective stoplist of `extract_semantic_key` (app/utils.py 79-83). -/
def ignore_words : List String :=
  ["grey", "gray", "white", "black", "brown", "red", "blue", "green",
   "open", "closed", "small", "large", "big", "little", "tiny", "huge",
   "old", "new", "patterned", "textured", "wooden", "metal"]

/-- `extract_semantic_key` (utils.py 62-91): lowercase and trim the subject,
drop stoplisted adjectives (falling back to the un-stripped subject when that
empties it), and join with direction and category. -/
def extract_semantic_key (subject direction category : String) : String :=
  let subject_normalized := pyStrip (pyLower subject)
  let words := pyWords subject_normalized
  let filtered_words := words.filter fun w => ¬ ignore_words.contains w
  let core_subject :=
    if filtered_words = [] then subject_normalized else joinSpace filtered_words
  core_subject ++ "|" ++ direction ++ "|" ++ category

/-- `SpeechManager` state (app/services/speech.py 25-35).  The
`announced_subjects` dict is an insertion-ordered association list. -/
structure SpeechManager where
  current_speech_end_time : ℚ
  last_semantic_key : String
  last_speech_time : ℚ
  last_distance : ℚ
  last_priority : String
  announced_subjects : List (String × ℚ)
  recent_speeches : List String
deriving DecidableEq, Repr

/-- The `SpeechManager.__init__` state. -/
def SpeechManager.init : SpeechManager :=
  { current_speech_end_time := 0, last_semantic_key := "", last_speech_time := 0,
    last_distance := 999, last_priority := "low", announced_subjects := [],
    recent_speeches := [] }

/-- `estimate_speech_duration` (speech.py 37-43): word count / 2.5 + 0.5. -/
def estimate_speech_duration (text : String) : ℚ :=
  ((pyWords text).length : ℚ) / (5/2 : ℚ) + (1/2 : ℚ)

/-- The `priority_map.get(p, 0)` table of `should_speak` (speech.py 60-63). -/
def priority_map (p : String) : Nat :=
  if p = "critical" then 4 else if p = "high" then 3 else if p = "medium" then 2
  else if p = "low" then 1 else if p = "info" then 0 else 0

/-- The `cooldowns.get(priority, MEDIUM_REPEAT_INTERVAL)` table of
`_check_same_context` (speech.py 88-95) with the intervals of app/config.py. -/
def cooldownFor (p : String) : ℚ :=
  if p = "critical" then 1 else if p = "high" then 2 else if p = "medium" then 4
  else if p = "low" then 8 else 4

/-- `SpeechManager._check_same_context` (speech.py 84-107). -/
def SpeechManager.check_same_context (m : SpeechManager) (now : ℚ) (priority : String)
    (distance : ℚ) : Bool × String :=
  let time_since_last := now - m.last_speech_time
  let min_interval := cooldownFor priority
  let distance_change := m.last_distance - distance
  if distance_change > (1/2 : ℚ) then (true, "distance_closed")
  else if time_since_last < min_interval then
    let remaining := pyInt (min_interval - time_since_last)
    (false, "same_context_cooldown (" ++ toString remaining ++ "s left)")
  else (true, "interval_passed")

/-- `SpeechManager._check_new_context` (speech.py 109-121). -/
def SpeechManager.check_new_context (m : SpeechManager) (now : ℚ) (subject : String) :
    Bool × String :=
  if now - m.last_speech_time < 3 then (false, "global_cooldown")
  else
    let last_announce := (lookupAssoc (pyLower subject) m.announced_subjects).getD 0
    if now - last_announce < 10 then (false, "subject_recently_announced")
    else (true, "new_context")

/-- `SpeechManager.should_speak` (speech.py 49-82).  The `speech_text`
argument is accepted and unused exactly as in the source. -/
def SpeechManager.should_speak (m : SpeechManager) (now : ℚ)
    (priority subject direction category : String) (distance : ℚ)
    (speech_text : String) : Bool × String :=
  let semantic_key := extract_semantic_key subject direction category
  let current_prio_val := priority_map priority
  let last_prio_val := priority_map m.last_priority
  if priority = "critical" then (true, "critical_alert")
  else if now < m.current_speech_end_time then
    if last_prio_val < current_prio_val ∧ distance < m.last_distance - (3/10 : ℚ) then
      (true, "priority_escalation")
    else (false, "speech_in_progress")
  else if semantic_key = m.last_semantic_key then m.check_same_context now priority distance
  else m.check_new_context now subject

/-- `SpeechManager.record_speech` (speech.py 123-145). -/
def SpeechManager.record_speech (m : SpeechManager) (now : ℚ)
    (speech_text priority subject direction category : String) (distance : ℚ) :
    SpeechManager :=
  let duration := estimate_speech_duration speech_text
  let announced := setAssoc m.announced_subjects (pyLower subject) now
  let recent0 := m.recent_speeches ++ [speech_text]
  let recent := if 5 < recent0.length then recent0.drop 1 else recent0
  { current_speech_end_time := now + duration
    last_semantic_key := extract_semantic_key subject direction category
    last_speech_time := now
    last_distance := distance
    last_priority := priority
    announced_subjects := announced.filter fun p => now - p.2 < 60
    recent_speeches := recent }

/-- A plan step as manipulated by the task code: the source only ever reads
and writes the `instruction` and `completed` keys of the step dicts. -/
structure PlanStep where
  instruction : String
  completed : Bool
deriving DecidableEq, Repr, Inhabited

/-- `TaskState` (models.py 103-118). -/
structure TaskState where
  is_active : Bool := false
  plan : List PlanStep := []
  current_step_index : Nat := 0
  waiting_for_user : Bool := false
deriving DecidableEq, Repr

/-- The `TaskState()` dataclass defaults. -/
def TaskState.init : TaskState := {}

/-- `TaskState.current_step` (models.py 113-118). -/
def TaskState.current_step (ts : TaskState) : Option PlanStep :=
  if ts.is_active ∧ ts.plan ≠ [] ∧ ts.current_step_index < ts.plan.length then
    ts.plan[ts.current_step_index]?
  else none

/-- `GlobalTaskState` (models.py 121-154). -/
structure GlobalTaskState where
  is_active : Bool := false
  plan : List PlanStep := []
  current_step_index : Nat := 0
  task_name : String := ""
  last_updated : ℚ := 0
deriving DecidableEq, Repr

/-- `GlobalTaskState.to_task_state` (models.py 132-138). -/
def GlobalTaskState.to_task_state (g : GlobalTaskState) : TaskState :=
  { is_active := g.is_active, plan := g.plan, current_step_index := g.current_step_index }

/-- `GlobalTaskState.is_valid` (models.py 149-154): active and fresher than
300 seconds. -/
def GlobalTaskState.is_valid (g : GlobalTaskState) (now : ℚ) : Bool :=
  g.is_active && decide (now - g.last_updated < 300)

/-- `plan[i]['completed'] = b`: in-range assignment into the plan list. -/
def setCompleted : List PlanStep → Nat → Bool → List PlanStep
  | [], _, _ => []
  | s :: rest, 0, b => { s with completed := b } :: rest
  | s :: rest, i + 1, b => s :: setCompleted rest i b

/-- The session-level state touched by `_handle_task_control`: the session's
`TaskState`, its mode string, and the durable store's active flag. -/
structure TaskCtl where
  ts : TaskState
  mode : String
  global_active : Bool
deriving DecidableEq, Repr

/-- `_handle_task_control` (processor.py 587-634): task-control transitions,
returning the new control state and the response text.  The trailing
`global_task_state.update_from(ts)` of line 627 is reflected by copying the
final `is_active` into `global_active` on every non-early-returning path. -/
def handle_task_control (intent : String) (c : TaskCtl) : TaskCtl × String :=
  if ¬ c.ts.is_active ∨ c.ts.plan = [] then (c, "No active task to control.")
  else
    let ts := c.ts
    let step1 : TaskState × String × String :=
      if intent = "task_skip" ∨ intent = "task_done" then
        let plan := setCompleted ts.plan ts.current_step_index true
        let idx := ts.current_step_index + 1
        if plan.length ≤ idx then
          ({ ts with is_active := false, plan := plan, current_step_index := idx },
           "nav", "Task completed.")
        else
          let next := (plan.getD idx default).instruction
          ({ ts with plan := plan, current_step_index := idx }, c.mode,
           "Done. Next: " ++ next)
      else if intent = "task_previous" then
        if 0 < ts.current_step_index then
          let idx := ts.current_step_index - 1
          let plan := setCompleted ts.plan idx false
          let prev := (plan.getD idx default).instruction
          ({ ts with plan := plan, current_step_index := idx }, c.mode, "Back to: " ++ prev)
        else (ts, c.mode, "Already at start.")
      else if intent = "task_repeat" then
        let curr := (ts.plan.getD ts.current_step_index default).instruction
        (ts, c.mode, "Current step: " ++ curr)
      else if intent = "task_status" then
        let total := ts.plan.length
        let current := ts.current_step_index + 1
        (ts, c.mode, "Step " ++ toString current ++ " of " ++ toString total ++ ".")
      else (ts, c.mode, "Unknown task command.")
    match step1 with
    | (ts2, mode2, resp) =>
      ({ ts := ts2, mode := mode2, global_active := ts2.is_active }, resp)

/-- The intent-handling portion of `process_inquiry` (processor.py 455-469)
specialized to the task-control intents (those beginning `task_`, routed by
`_handle_intent` at line 534-535): the source invokes `_handle_intent` at
line 456 and then again at line 467, so `_handle_task_control` runs twice,
and the second call's (always non-empty) response text overrides the
model-generated speech. -/
def process_inquiry_task_control (intent : String) (c : TaskCtl) (ai_speech : String) :
    TaskCtl × String :=
  let r1 := handle_task_control intent c
  let r2 := handle_task_control intent r1.1
  (r2.1, if r2.2 = "" then ai_speech else r2.2)

/-- A message sent to the client over the websocket during session start. -/
inductive OutMsg where
  | task_update (plan : List PlanStep) (idx : Nat) (restored : Bool)
  | speak (text : String)
deriving DecidableEq, Repr

/-- The part of the fresh `SessionState()` relevant to session start. -/
structure SessionInit where
  task_state : TaskState
  mode : String
deriving DecidableEq, Repr

/-- The task-restoration block of `websocket_endpoint` (websocket.py 43-61):
if the durable state is valid, adopt it into the session, switch to task
mode, send the restored plan, and announce the current step when one
exists; otherwise keep the fresh session defaults. -/
def session_start (g : GlobalTaskState) (now : ℚ) : SessionInit × List OutMsg :=
  if g.is_valid now then
    let ts := g.to_task_state
    let msgs := [OutMsg.task_update ts.plan ts.current_step_index true]
    match ts.current_step with
    | some step =>
      let instr := step.instruction
      ({ task_state := ts, mode := "task" }, msgs ++ [OutMsg.speak ("Resuming. Step: " ++ instr)])
    | none => ({ task_state := ts, mode := "task" }, msgs)
  else ({ task_state := TaskState.init, mode := "nav" }, [])

/-- One entry of the persistent object-sighting history (memory.py 90-95). -/
structure HistEntry where
  object : String
  location : Option String
  scene : String
  timestamp : ℚ
deriving DecidableEq, Repr

/-- The `history` list of the persistent memory store. -/
structure MemoryData where
  history : List HistEntry
deriving DecidableEq, Repr

/-- `PersistentMemory.log_object` (memory.py 78-114): drop empty or
placeholder names, skip when the most recent entry has the same object name
within 10 seconds, append, and trim to the last 1000 entries. -/
def log_object (d : MemoryData) (now : ℚ) (object_name : String)
    (location_tag : Option String) (scene_desc : String) : MemoryData :=
  if object_name = "" ∨ ["none", "unknown", "null"].contains (pyLower object_name) then d
  else
    let entry : HistEntry :=
      { object := object_name, location := location_tag, scene := scene_desc,
        timestamp := now }
    let dup : Bool :=
      match d.history.getLast? with
      | some last => decide (last.object = object_name) && decide (now - last.timestamp < 10)
      | none => false
    if dup then d
    else
      let h := d.history ++ [entry]
      let h2 := if 1000 < h.length then h.drop (h.length - 1000) else h
      { history := h2 }

/-- One `log_object` call's arguments. -/
structure LogCall where
  now : ℚ
  object_name : String
  location_tag : Option String
  scene_desc : String
deriving DecidableEq, Repr

/-- A sequence of `log_object` calls applied in order. -/
def runLog (d : MemoryData) : List LogCall → MemoryData
  | [] => d
  | c :: rest => runLog (log_object d c.now c.object_name c.location_tag c.scene_desc) rest

/-- An interleaving event on a session's frame mailbox: the producer submits
a frame (websocket.py 132-154), the consumer wakes on the event and claims
the pending frame when it is free (websocket.py 73-83), or a dispatch
finishes and runs the `finally` block (websocket.py 96-100). -/
inductive MEvent where
  | submit (f : Nat)
  | wake
  | finish
deriving DecidableEq, Repr

/-- The single-slot mailbox shared by producer and consumer, together with
the ghost field `last_submitted` recording the most recently submitted frame
and `claimed` holding the frame currently dispatched (`frame_data`). -/
structure Mailbox where
  latest : Option Nat
  is_processing : Bool
  event_set : Bool
  last_submitted : Option Nat
  claimed : Option Nat
  frames_skipped : Nat
deriving DecidableEq, Repr

/-- The mailbox at session start. -/
def Mailbox.init : Mailbox :=
  { latest := none, is_processing := false, event_set := false,
    last_submitted := none, claimed := none, frames_skipped := 0 }

/-- One mailbox transition.  `submit` always overwrites `latest` with the new
frame, raising the event only when idle and counting a skip otherwise;
`wake` clears the event and claims the pending frame when not processing;
`finish` clears the processing flag and re-raises the event if a frame
arrived during the dispatch. -/
def mstep (s : Mailbox) : MEvent → Mailbox
  | .submit f =>
    if s.is_processing then
      { s with
        latest := some f
        last_submitted := some f
        frames_skipped := s.frames_skipped + 1 }
    else
      { s with latest := some f, last_submitted := some f, event_set := true }
  | .wake =>
    if s.event_set then
      match s.latest with
      | some f =>
        if s.is_processing then { s with event_set := false }
        else
          { s with
            event_set := false
            is_processing := true
            latest := none
            claimed := some f }
      | none => { s with event_set := false }
    else s
  | .finish =>
    if s.is_processing then
      { s with
        is_processing := false
        claimed := none
        event_set := if s.latest.isSome then true else s.event_set }
    else s

/-- A mailbox trace: the fold of `mstep` over an event list. -/
def runMailbox (s : Mailbox) : List MEvent → Mailbox
  | [] => s
  | e :: es => runMailbox (mstep s e) es

/-- How a dispatched handler call ends: normally, with an exception escaping
the handler, or cancelled (asyncio.CancelledError, which is not an
`Exception` and passes through the inner `except`). -/
inductive DispatchOutcome where
  | ok
  | exc (msg : String)
  | cancelled
deriving DecidableEq, Repr

/-- Whether the consumer loop continues to its next iteration or breaks. -/
inductive LoopControl where
  | cont
  | brk
deriving DecidableEq, Repr

/-- The consumer-side view of the session state in one loop pass. -/
structure ConsumerState where
  latest : Option Nat
  is_processing : Bool
  event_set : Bool
  frames_skipped : Nat
deriving DecidableEq, Repr

/-- One pass of `_frame_processor_loop`'s body (websocket.py 73-107) after
`frame_event.wait()` returns: clear the event; if a frame is pending and the
session is idle, claim it and dispatch (`arrived` is whatever frame the
producer wrote into the slot during the dispatch).  An exception from the
handler is caught by the inner `except` and only logged; the `finally`
block clears the processing flag and re-raises the event if a new frame
arrived.  Cancellation breaks the loop after the `finally` block runs. -/
def consumer_body (s : ConsumerState) (outcome : DispatchOutcome) (arrived : Option Nat) :
    ConsumerState × LoopControl :=
  let s0 : ConsumerState := { s with event_set := false }
  match s0.latest with
  | some _ =>
    if s0.is_processing then (s0, .cont)
    else
      let s1 : ConsumerState := { s0 with is_processing := true, latest := arrived }
      let s2 : ConsumerState :=
        { s1 with
          is_processing := false
          event_set := if s1.latest.isSome then true else s1.event_set }
      match outcome with
      | .cancelled => (s2, .brk)
      | _ => (s2, .cont)
  | none => (s0, .cont)

/-- How one `process_frame` call ends internally: success, model timeout, or
an exception reaching its own `except` clause (processor.py 391-397). -/
inductive NavOutcome where
  | ok
  | model_timeout
  | exc (msg : String)
deriving DecidableEq, Repr

/-- The effect of `process_frame`'s own error handling (processor.py
391-397) on the session's skip counter: timeouts and internal exceptions
increment it. -/
def process_frame_skips (o : NavOutcome) (frames_skipped : Nat) : Nat :=
  match o with
  | .ok => frames_skipped
  | .model_timeout => frames_skipped + 1
  | .exc _ => frames_skipped + 1

/-- The stability bookkeeping invariant of the tracker's entry map: a stable
entry has received at least two qualifying detection updates since it was
created (creation counts one, each update adds one). -/
def stable_inv (objs : List (String × TrackedObject)) : Prop :=
  ∀ p ∈ objs, p.2.is_stable = true → 2 ≤ p.2.frames_detected

/-- A chair detection dict with the given confidence and distance. -/
def chairD (conf dist : ℚ) : Detection :=
  { name := "chair", confidence_score := some conf, distance := some dist,
    direction := some "ahead", category := some "furniture" }

/-- A detection dict whose `confidence_score` key is missing. -/
def lampDet : Detection :=
  { name := "lamp", confidence_score := none, distance := some 1,
    direction := none, category := none }

/-- The tracker entry for a chair first seen at distance 2 at time 0 and
seen again at distance 2 at time 1. -/
def chair_obj : TrackedObject :=
  { name := "chair", category := "furniture", confidence := 90, raw_distance := 2,
    raw_direction := "ahead", distance := 2, direction := "ahead", last_seen := 1,
    frames_detected := 2, is_stable := true }

/-- A three-step plan with no step completed yet. -/
def c2_plan : List PlanStep :=
  [{ instruction := "step a", completed := false },
   { instruction := "step b", completed := false },
   { instruction := "step c", completed := false }]

/-- An active task session on `c2_plan` at step index 0, in task mode. -/
def c2_ctl : TaskCtl :=
  { ts := { is_active := true, plan := c2_plan, current_step_index := 0,
            waiting_for_user := false },
    mode := "task", global_active := true }

/-- A durable task state that is active and fresh but has an empty plan. -/
def c8_empty_plan : GlobalTaskState :=
  { is_active := true, plan := [], current_step_index := 0, task_name := "",
    last_updated := 0 }

/-- A durable task state that is active, fresh at `now = 10`, with one step. -/
def c8_baking : GlobalTaskState :=
  { is_active := true, plan := [{ instruction := "mix the batter", completed := false }],
    current_step_index := 0, task_name := "baking", last_updated := 0 }

/-- A speech gate that last spoke about the chair ahead at time 0, distance
1 m, medium priority, and is not currently speaking. -/
def c7_gate : SpeechManager :=
  { current_speech_end_time := 0, last_semantic_key := "chair|ahead|furniture",
    last_speech_time := 0, last_distance := 1, last_priority := "medium",
    announced_subjects := [], recent_speeches := [] }

/-- Three log calls: apple at t=0, book at t=1, apple again at t=2. -/
def c9_calls : List LogCall :=
  [{ now := 0, object_name := "apple", location_tag := none, scene_desc := "on the desk" },
   { now := 1, object_name := "book", location_tag := none, scene_desc := "on the desk" },
   { now := 2, object_name := "apple", location_tag := none, scene_desc := "on the desk" }]

/-- Looking a key up after an in-place value update maps the old result. -/
theorem lookupAssoc_updateAssoc {α : Type} (k : String) (f : α → α)
    (l : List (String × α)) :
    lookupAssoc k (updateAssoc k f l) = (lookupAssoc k l).map f := by
  induction l with
  | nil => rfl
  | cons p rest ih =>
    by_cases h : p.1 = k
    · simp [lookupAssoc, updateAssoc, h]
    · simpa [lookupAssoc, updateAssoc, h] using ih

/-- Appending a new binding for an absent key makes it the lookup result. -/
theorem lookupAssoc_append_self {α : Type} (k : String) (v : α)
    (l : List (String × α)) (h : lookupAssoc k l = none) :
    lookupAssoc k (l ++ [(k, v)]) = some v := by
  induction l with
  | nil => simp [lookupAssoc]
  | cons p rest ih =>
    by_cases hp : p.1 = k
    · simp [lookupAssoc, hp] at h
    · simp only [lookupAssoc, hp, if_false, List.cons_append] at h ⊢
      exact ih h

/-- A member of an in-place-updated association list is either an untouched
member of the original or the image of a member under the update. -/
theorem mem_updateAssoc {α : Type} (k : String) (f : α → α)
    (l : List (String × α)) (p : String × α) (hp : p ∈ updateAssoc k f l) :
    p ∈ l ∨ ∃ q ∈ l, p = (q.1, f q.2) := by
  unfold updateAssoc at hp
  rcases List.mem_map.mp hp with ⟨q, hq, hpq⟩
  by_cases h : q.1 = k
  · right
    refine ⟨q, hq, ?_⟩
    rw [← hpq, if_pos h]
  · left
    rw [← hpq, if_neg h]
    exact hq

/-- `TrackedObject.update` preserves the stability bookkeeping: if stability
previously implied two detections, it still does after an update. -/
theorem stable_inv_update (o : TrackedObject) (now nd : ℚ) (ndir : String) (nc : ℚ)
    (h : o.is_stable = true → 2 ≤ o.frames_detected) :
    (o.update now nd ndir nc).is_stable = true →
      2 ≤ (o.update now nd ndir nc).frames_detected := by
  intro hs
  simp only [TrackedObject.update] at hs ⊢
  by_cases h2 : 2 ≤ o.frames_detected + 1
  · omega
  · rw [if_neg h2] at hs
    have := h hs
    omega

/-- The update/create loop body preserves the stability invariant. -/
theorem stable_inv_applyDet (now th : ℚ) (objs : List (String × TrackedObject))
    (det : Detection) (h : stable_inv objs) : stable_inv (applyDet now th objs det) := by
  unfold applyDet
  by_cases hg : det.name = "" ∨ det.confidence_score.getD 100 < th
  · simpa [hg] using h
  · simp only [if_neg hg]
    rcases hl : lookupAssoc (pyLower det.name) objs with _ | o
    · simp only [hl]
      intro p hp
      rcases List.mem_append.mp hp with hmem | hmem
      · exact h p hmem
      · rcases List.mem_singleton.mp hmem with rfl
        intro habs
        simp at habs
    · simp only [hl]
      intro p hp
      rcases mem_updateAssoc _ _ _ p hp with hmem | ⟨q, hq, rfl⟩
      · exact h p hmem
      · exact stable_inv_update q.2 now _ _ _ (h q hq)

/-- Folding a whole detection list preserves the stability invariant. -/
theorem stable_inv_foldl (now th : ℚ) :
    ∀ (dets : List Detection) (objs : List (String × TrackedObject)),
      stable_inv objs → stable_inv (dets.foldl (applyDet now th) objs) := by
  intro dets
  induction dets with
  | nil => intro objs h; exact h
  | cons d rest ih =>
    intro objs h
    exact ih _ (stable_inv_applyDet now th objs d h)

/-- Pruning (filtering) preserves the stability invariant. -/
theorem stable_inv_filter (objs : List (String × TrackedObject))
    (pred : String × TrackedObject → Bool) (h : stable_inv objs) :
    stable_inv (objs.filter pred) := by
  intro p hp
  exact h p (List.mem_of_mem_filter hp)

/-- One full ingest call preserves the stability invariant. -/
theorem stable_inv_process (t : VisualTracker) (now : ℚ) (dets : List Detection)
    (h : stable_inv t.tracked_objects) :
    stable_inv ((t.process_detections now dets).1.tracked_objects) := by
  unfold VisualTracker.process_detections
  exact stable_inv_foldl now t.confidence_threshold dets _ (stable_inv_filter _ _ h)

/-- Any sequence of ingest calls preserves the stability invariant. -/
theorem stable_inv_run :
    ∀ (steps : List (ℚ × List Detection)) (t : VisualTracker),
      stable_inv t.tracked_objects → stable_inv (runTracker t steps).tracked_objects := by
  intro steps
  induction steps with
  | nil => intro t h; exact h
  | cons s rest ih =>
    intro t h
    exact ih _ (stable_inv_process t s.1 s.2 h)

/-- The mailbox invariant: whatever frame sits in the single slot is the most
recently submitted one. -/
theorem mailbox_latest_inv :
    ∀ (es : List MEvent) (s : Mailbox),
      (∀ f, s.latest = some f → s.last_submitted = some f) →
      ∀ f, (runMailbox s es).latest = some f →
        (runMailbox s es).last_submitted = some f := by
  intro es
  induction es with
  | nil => intro s h; exact h
  | cons e es ih =>
    intro s h
    apply ih
    intro f hf
    cases e with
    | submit g =>
      by_cases hp : s.is_processing
      · simp [mstep, hp] at hf ⊢
        exact hf
      · simp [mstep, hp] at hf ⊢
        exact hf
    | wake =>
      by_cases he : s.event_set
      · rcases hl : s.latest with _ | g
        · simp [mstep, he, hl] at hf
        · by_cases hp : s.is_processing
          · simp [mstep, he, hl, hp] at hf ⊢
            rw [← hf]
            simpa using h g hl
          · simp [mstep, he, hl, hp] at hf
      · simp [mstep, he] at hf ⊢
        exact h f hf
    | finish =>
      by_cases hp : s.is_processing
      · simp [mstep, hp] at hf ⊢
        exact h f hf
      · simp [mstep, hp] at hf ⊢
        exact h f hf

/-- Claim C1: over every interleaving of submissions and consumer steps on
the single-slot mailbox, whenever the consumer is able to claim a frame
(pending frame, idle, event raised), the frame it claims on waking is
exactly the most recently submitted frame — never an earlier, overwritten
one. -/
theorem C1_consumer_claims_freshest :
    ∀ (es : List MEvent) (f : Nat),
      (runMailbox Mailbox.init es).latest = some f →
      (runMailbox Mailbox.init es).is_processing = false →
      (runMailbox Mailbox.init es).event_set = true →
      (mstep (runMailbox Mailbox.init es) .wake).claimed = some f
      ∧ (runMailbox Mailbox.init es).last_submitted = some f := by
  intro es f hl hp he
  have hinv := mailbox_latest_inv es Mailbox.init
      (by intro g hg; simp [Mailbox.init] at hg) f hl
  refine ⟨?_, hinv⟩
  simp [mstep, he, hl, hp]

/-- Witness for C1: frame 1 is claimed, frames 2 and 3 are submitted during
its dispatch; on finishing, the consumer claims frame 3 (the freshest), not
the overwritten frame 2. -/
theorem C1_witness :
    (runMailbox Mailbox.init
        [.submit 1, .wake, .submit 2, .submit 3, .finish]).latest = some 3
    ∧ (mstep (runMailbox Mailbox.init
        [.submit 1, .wake, .submit 2, .submit 3, .finish]) .wake).claimed = some 3
    ∧ (runMailbox Mailbox.init
        [.submit 1, .wake, .submit 2, .submit 3, .finish]).last_submitted = some 3 := by
  have h := C1_consumer_claims_freshest [.submit 1, .wake, .submit 2, .submit 3, .finish] 3
      (by decide) (by decide) (by decide)
  exact ⟨by decide, h.1, h.2⟩

/-- Claim C2 (code bug): `process_inquiry` dispatches `_handle_intent` twice
(processor.py 456 and 467), so one `task_skip` inquiry on a 3-step plan at
index 0 marks steps 0 and 1 completed and leaves the index at 2 — not at 1
as the claim (and a single `_handle_task_control` call, shown last) gives. -/
theorem C2_double_dispatch_eval :
    (process_inquiry_task_control "task_skip" c2_ctl "ok").1.ts.current_step_index = 2
    ∧ (process_inquiry_task_control "task_skip" c2_ctl "ok").1.ts.plan
        = [{ instruction := "step a", completed := true },
           { instruction := "step b", completed := true },
           { instruction := "step c", completed := false }]
    ∧ (process_inquiry_task_control "task_skip" c2_ctl "ok").2 = "Done. Next: step c"
    ∧ (handle_task_control "task_skip" c2_ctl).1.ts.current_step_index = 1
    ∧ (handle_task_control "task_skip" c2_ctl).1.ts.plan
        = [{ instruction := "step a", completed := true },
           { instruction := "step b", completed := false },
           { instruction := "step c", completed := false }] := by
  decide

/-- Counterexample to C3 as stated: when the handler raises, the consumer
loop catches the exception and continues, but it does NOT increment the
session's skip counter. -/
theorem C3_counterexample :
    (consumer_body ⟨some 7, false, true, 0⟩ (.exc "boom") none).2 = .cont
    ∧ (consumer_body ⟨some 7, false, true, 0⟩ (.exc "boom") none).1.frames_skipped = 0
    ∧ ¬ (consumer_body ⟨some 7, false, true, 0⟩ (.exc "boom")
          none).1.frames_skipped = 0 + 1 := by
  decide

/-- Claim C3 (amended): an exception escaping the frame handler is caught by
the consumer loop, which clears the processing flag and continues without
touching the skip counter; the loop breaks only on cancellation; the skip
counter is incremented by the handlers' own internal error handling
(`process_frame` on timeout or internal exception). -/
theorem C3_loop_catches_and_continues :
    (∀ (s : ConsumerState) (msg : String) (arrived : Option Nat),
       s.latest.isSome = true → s.is_processing = false →
       (consumer_body s (.exc msg) arrived).2 = .cont
       ∧ (consumer_body s (.exc msg) arrived).1.frames_skipped = s.frames_skipped
       ∧ (consumer_body s (.exc msg) arrived).1.is_processing = false)
    ∧ (∀ (s : ConsumerState) (o : DispatchOutcome) (arrived : Option Nat),
       (consumer_body s o arrived).2 = .brk → o = .cancelled)
    ∧ (∀ (msg : String) (n : Nat), process_frame_skips (.exc msg) n = n + 1)
    ∧ (∀ n : Nat, process_frame_skips .model_timeout n = n + 1) := by
  refine ⟨?_, ?_, fun msg n => rfl, fun n => rfl⟩
  · intro s msg arrived hl hp
    rcases hlat : s.latest with _ | f
    · rw [hlat] at hl
      simp at hl
    · simp [consumer_body, hlat, hp]
  · intro s o arrived hbrk
    rcases hlat : s.latest with _ | f
    · simp [consumer_body, hlat] at hbrk
    · by_cases hp : s.is_processing
      · simp [consumer_body, hlat, hp] at hbrk
      · cases o with
        | ok => simp [consumer_body, hlat, hp] at hbrk
        | exc m => simp [consumer_body, hlat, hp] at hbrk
        | cancelled => rfl

/-- Witness for C3: concrete loop passes — a handler exception leaves the
skip counter at 3 and continues; a cancellation breaks the loop;
`process_frame`'s internal handling takes the counter from 3 to 4. -/
theorem C3_witness :
    (consumer_body ⟨some 5, false, true, 3⟩ (.exc "x") (some 9)).2 = .cont
    ∧ (consumer_body ⟨some 5, false, true, 3⟩ (.exc "x") (some 9)).1.frames_skipped = 3
    ∧ DispatchOutcome.cancelled = DispatchOutcome.cancelled
    ∧ process_frame_skips (.exc "x") 3 = 3 + 1 := by
  have h := C3_loop_catches_and_continues
  have h1 := h.1 ⟨some 5, false, true, 3⟩ "x" (some 9) (by decide) (by decide)
  have h2 := h.2.1 ⟨some 5, false, true, 3⟩ DispatchOutcome.cancelled none (by decide)
  exact ⟨h1.1, h1.2.1, h2, h.2.2.1 "x" 3⟩

/-- Claim C5: every tracked-entry update applies the exponential moving
average `smoothed = old * 0.7 + new * 0.3`; concretely, ingesting a chair at
raw distance 2.0 and then at raw distance 1.0 leaves its entry with smoothed
distance 1.7. -/
theorem C5_distance_ema :
    (∀ (o : TrackedObject) (now new_dist : ℚ) (new_dir : String) (new_conf : ℚ),
       (o.update now new_dist new_dir new_conf).distance
         = o.distance * (7/10 : ℚ) + new_dist * (3/10 : ℚ))
    ∧ (lookupAssoc "chair"
        ((VisualTracker.init.process_detections 0 [chairD 90 2]).1.process_detections 1
          [chairD 90 1]).1.tracked_objects).map TrackedObject.distance
        = some (17/10 : ℚ) := by
  refine ⟨fun o now nd ndir nc => rfl, ?_⟩
  norm_num [VisualTracker.process_detections, VisualTracker.init, applyDet, chairD,
    lookupAssoc, updateAssoc, TrackedObject.update,
    show pyLower "chair" = "chair" from by decide,
    show ¬ ("chair" = "") from by decide]

/-- Claim C6: `should_speak` with critical priority returns
`(true, "critical_alert")` in every speech-gate state, including the state
immediately after any `record_speech` call. -/
theorem C6_critical_always_speaks :
    (∀ (m : SpeechManager) (now : ℚ) (subject direction category : String)
       (distance : ℚ) (text : String),
       m.should_speak now "critical" subject direction category distance text
         = (true, "critical_alert"))
    ∧ (∀ (m : SpeechManager) (t0 : ℚ) (st pr su di ca : String) (d0 : ℚ)
       (now : ℚ) (subject direction category : String) (distance : ℚ) (text : String),
       (m.record_speech t0 st pr su di ca d0).should_speak now "critical" subject
          direction category distance text = (true, "critical_alert")) := by
  exact ⟨fun m now su di ca d t => rfl,
    fun m t0 st pr su di ca d0 now subj dir cat dist txt => rfl⟩

/-- Claim C7: with no speech in progress, an unchanged semantic key and a
distance that has not closed by more than 0.5 m, a medium-priority repeat is
suppressed with the cooldown reason when 2 s have elapsed since the last
speech, and spoken with reason `interval_passed` when 5 s have elapsed
(the medium cooldown being 4 s). -/
theorem C7_same_context_medium_cooldown :
    ∀ (m : SpeechManager) (now : ℚ) (subject direction category : String)
      (distance : ℚ) (text : String),
      ¬ (now < m.current_speech_end_time) →
      extract_semantic_key subject direction category = m.last_semantic_key →
      m.last_distance - distance ≤ 1/2 →
      ((now - m.last_speech_time = 2 →
         m.should_speak now "medium" subject direction category distance text
           = (false, "same_context_cooldown (2s left)"))
       ∧ (now - m.last_speech_time = 5 →
         m.should_speak now "medium" subject direction category distance text
           = (true, "interval_passed"))) := by
  intro m now subject direction category distance text h1 h2 h3
  have hno : ¬ (("medium" : String) = "critical") := by decide
  have hnd : ¬ (m.last_distance - distance > (1/2 : ℚ)) := not_lt.mpr h3
  have hcd : cooldownFor "medium" = (4 : ℚ) := rfl
  constructor
  · intro h4
    simp only [SpeechManager.should_speak, SpeechManager.check_same_context,
      if_neg hno, if_neg h1, if_pos h2, if_neg hnd, hcd, h4]
    norm_num
    decide
  · intro h5
    simp only [SpeechManager.should_speak, SpeechManager.check_same_context,
      if_neg hno, if_neg h1, if_pos h2, if_neg hnd, hcd, h5]
    norm_num

/-- Witness for C7: the concrete gate of `c7_gate` suppresses the repeated
chair announcement at 2 s and speaks it at 5 s. -/
theorem C7_witness :
    c7_gate.should_speak 2 "medium" "chair" "ahead" "furniture" 1 "chair ahead"
      = (false, "same_context_cooldown (2s left)")
    ∧ c7_gate.should_speak 5 "medium" "chair" "ahead" "furniture" 1 "chair ahead"
      = (true, "interval_passed") := by
  have hA := C7_same_context_medium_cooldown c7_gate 2 "chair" "ahead" "furniture" 1
      "chair ahead" (by norm_num [c7_gate]) (by decide) (by norm_num [c7_gate])
  have hB := C7_same_context_medium_cooldown c7_gate 5 "chair" "ahead" "furniture" 1
      "chair ahead" (by norm_num [c7_gate]) (by decide) (by norm_num [c7_gate])
  exact ⟨hA.1 (by norm_num [c7_gate]), hB.2 (by norm_num [c7_gate])⟩

/-- Claim C8 (amended): a new session adopts the durable task state exactly
when it is active and fresher than 300 s; on adoption the mode becomes
`task` and, whenever the adopted state has a current step, a resumption
announcement naming that step's instruction is sent. -/
theorem C8_adoption_iff_valid :
    ∀ (g : GlobalTaskState) (now : ℚ),
      (g.is_valid now = true ↔ (g.is_active = true ∧ now - g.last_updated < 300))
      ∧ (g.is_valid now = true →
          (session_start g now).1.mode = "task"
          ∧ (session_start g now).1.task_state = g.to_task_state
          ∧ ∀ step : PlanStep, g.to_task_state.current_step = some step →
              OutMsg.speak ("Resuming. Step: " ++ step.instruction)
                ∈ (session_start g now).2)
      ∧ (g.is_valid now = false →
          (session_start g now).1.mode = "nav"
          ∧ (session_start g now).1.task_state = TaskState.init
          ∧ (session_start g now).2 = [])
      ∧ (now - g.last_updated = 301 → g.is_valid now = false)
      ∧ (now - g.last_updated = 10 → g.is_active = true → g.is_valid now = true) := by
  intro g now
  refine ⟨?_, ?_, ?_, ?_, ?_⟩
  · simp [GlobalTaskState.is_valid]
  · intro hv
    rcases hcs : g.to_task_state.current_step with _ | step
    · refine ⟨?_, ?_, ?_⟩ <;> simp [session_start, hv, hcs]
    · refine ⟨?_, ?_, ?_⟩
      · simp [session_start, hv, hcs]
      · simp [session_start, hv, hcs]
      · intro step2 hstep2
        rcases Option.some_injective _ hstep2 with rfl
        simp [session_start, hv, hcs]
  · intro hv
    refine ⟨?_, ?_, ?_⟩ <;> simp [session_start, hv]
  · intro h301
    simp only [GlobalTaskState.is_valid, h301]
    norm_num
  · intro h10 hact
    simp only [GlobalTaskState.is_valid, h10, hact]
    norm_num

/-- Counterexample to C8 as stated: an active, fresh durable state with an
empty plan IS adopted (mode becomes task) but NO resumption announcement is
emitted, because there is no current step. -/
theorem C8_counterexample_no_announcement :
    (session_start c8_empty_plan 10).1.mode = "task"
    ∧ (session_start c8_empty_plan 10).1.task_state.is_active = true
    ∧ ∀ t : String, OutMsg.speak t ∉ (session_start c8_empty_plan 10).2 := by
  have hmsgs : (session_start c8_empty_plan 10).2 = [OutMsg.task_update [] 0 true] := by
    norm_num [session_start, c8_empty_plan, GlobalTaskState.is_valid,
      GlobalTaskState.to_task_state, TaskState.current_step]
  refine ⟨?_, ?_, ?_⟩
  · norm_num [session_start, c8_empty_plan, GlobalTaskState.is_valid,
      GlobalTaskState.to_task_state, TaskState.current_step]
  · norm_num [session_start, c8_empty_plan, GlobalTaskState.is_valid,
      GlobalTaskState.to_task_state, TaskState.current_step]
  · intro t ht
    rw [hmsgs] at ht
    simp at ht

/-- Witness for C8: the fresh one-step baking task is adopted at `now = 10`
with mode task and a spoken resumption of its step; at `now = 301` the same
state is stale and invalid. -/
theorem C8_witness :
    GlobalTaskState.is_valid c8_baking 10 = true
    ∧ (session_start c8_baking 10).1.mode = "task"
    ∧ OutMsg.speak ("Resuming. Step: " ++ "mix the batter") ∈ (session_start c8_baking 10).2
    ∧ GlobalTaskState.is_valid c8_baking 301 = false := by
  have h := C8_adoption_iff_valid c8_baking 10
  have hv : c8_baking.is_valid 10 = true :=
    (h.1).mpr ⟨rfl, by norm_num [c8_baking]⟩
  have h2 := h.2.1 hv
  have hstep : c8_baking.to_task_state.current_step
      = some { instruction := "mix the batter", completed := false } := by
    simp [c8_baking, GlobalTaskState.to_task_state, TaskState.current_step]
  have hmem := h2.2.2 { instruction := "mix the batter", completed := false } hstep
  have h301 := (C8_adoption_iff_valid c8_baking 301).2.2.2.1 (by norm_num [c8_baking])
  exact ⟨hv, h2.1, hmem, h301⟩

/-- Claim C10: a detection with a non-empty name and no `confidence_score`
key gets the default confidence 100, which passes the default threshold 75,
so processing it always leaves a tracked entry under its lowercased name
(created or updated) carrying confidence 100. -/
theorem C10_missing_confidence_defaults :
    ∀ (t : VisualTracker) (now : ℚ) (d : Detection),
      t.confidence_threshold = 75 → d.name ≠ "" → d.confidence_score = none →
      ∃ o : TrackedObject,
        lookupAssoc (pyLower d.name) ((t.process_detections now [d]).1.tracked_objects)
          = some o
        ∧ o.confidence = 100 := by
  intro t now d hth hname hconf
  unfold VisualTracker.process_detections
  simp only [List.foldl]
  unfold applyDet
  rw [hconf, hth]
  simp only [Option.getD_none]
  rw [if_neg (by push_neg; exact ⟨hname, by norm_num⟩)]
  rcases hl : lookupAssoc (pyLower d.name)
      (t.tracked_objects.filter fun p => now - p.2.last_seen < t.timeout) with _ | o
  · simp only [hl]
    exact ⟨_, lookupAssoc_append_self _ _ _ hl, rfl⟩
  · simp only [hl]
    refine ⟨o.update now (d.distance.getD 0) (d.direction.getD "ahead") 100, ?_, rfl⟩
    rw [lookupAssoc_updateAssoc, hl]
    rfl

/-- One `log_object` call keeps the history at or below the 1000-entry cap. -/
theorem log_object_length_le (d : MemoryData) (now : ℚ) (nm : String)
    (loc : Option String) (sc : String) (h : d.history.length ≤ 1000) :
    (log_object d now nm loc sc).history.length ≤ 1000 := by
  unfold log_object
  by_cases hg : nm = "" ∨ ["none", "unknown", "null"].contains (pyLower nm)
  · rw [if_pos hg]
    exact h
  · rw [if_neg hg]
    rcases hlast : d.history.getLast? with _ | last
    · simp only [hlast, Bool.false_eq_true, if_false]
      by_cases htrim : 1000 < (d.history ++ [(⟨nm, loc, sc, now⟩ : HistEntry)]).length
      · simp only [if_pos htrim, List.length_drop]
        omega
      · simp only [if_neg htrim]
        omega
    · simp only [hlast]
      by_cases hdup : (decide (last.object = nm) && decide (now - last.timestamp < 10)) = true
      · simp only [hdup, if_true]
        exact h
      · simp only [Bool.not_eq_true] at hdup
        simp only [hdup, Bool.false_eq_true, if_false]
        by_cases htrim : 1000 < (d.history ++ [(⟨nm, loc, sc, now⟩ : HistEntry)]).length
        · simp only [if_pos htrim, List.length_drop]
          omega
        · simp only [if_neg htrim]
          omega

/-- Claim C9 (amended): a `log_object` call is deduplicated only against the
MOST RECENT history entry — it appends nothing exactly when the last entry
has the same object name and is younger than 10 s; every call leaves the
history a suffix of the old history plus the new entry (oldest entries are
dropped first), and from any in-cap store every sequence of calls keeps the
history at or below 1000 entries. -/
theorem C9_dedup_last_and_cap :
    (∀ (d : MemoryData) (now : ℚ) (nm : String) (loc : Option String) (sc : String)
       (last : HistEntry),
       d.history.getLast? = some last → last.object = nm → now - last.timestamp < 10 →
       log_object d now nm loc sc = d)
    ∧ (∀ (d : MemoryData) (now : ℚ) (nm : String) (loc : Option String) (sc : String),
       (log_object d now nm loc sc).history = d.history
       ∨ (log_object d now nm loc sc).history.IsSuffix
           (d.history ++ [{ object := nm, location := loc, scene := sc, timestamp := now }]))
    ∧ (∀ (d : MemoryData) (now : ℚ) (nm : String) (loc : Option String) (sc : String),
       d.history.length ≤ 1000 → (log_object d now nm loc sc).history.length ≤ 1000)
    ∧ (∀ (d0 : MemoryData) (calls : List LogCall),
       d0.history.length ≤ 1000 → (runLog d0 calls).history.length ≤ 1000) := by
  refine ⟨?_, ?_, log_object_length_le, ?_⟩
  · intro d now nm loc sc last hlast hobj htime
    unfold log_object
    by_cases hg : nm = "" ∨ ["none", "unknown", "null"].contains (pyLower nm)
    · rw [if_pos hg]
    · rw [if_neg hg]
      simp only [hlast]
      have hdup : (decide (last.object = nm) && decide (now - last.timestamp < 10)) = true := by
        simp [hobj, htime]
      simp only [hdup, if_true]
  · intro d now nm loc sc
    unfold log_object
    by_cases hg : nm = "" ∨ ["none", "unknown", "null"].contains (pyLower nm)
    · rw [if_pos hg]
      exact Or.inl rfl
    · rw [if_neg hg]
      rcases hlast : d.history.getLast? with _ | last
      · simp only [hlast, Bool.false_eq_true, if_false]
        right
        by_cases htrim : 1000 < (d.history ++ [(⟨nm, loc, sc, now⟩ : HistEntry)]).length
        · simp only [if_pos htrim]
          exact List.drop_suffix _ _
        · simp only [if_neg htrim]
          exact List.suffix_refl _
      · simp only [hlast]
        by_cases hdup : (decide (last.object = nm) && decide (now - last.timestamp < 10)) = true
        · simp [hdup]
        · simp only [Bool.not_eq_true] at hdup
          simp only [hdup, Bool.false_eq_true, if_false]
          right
          by_cases htrim : 1000 < (d.history ++ [(⟨nm, loc, sc, now⟩ : HistEntry)]).length
          · simp only [if_pos htrim]
            exact List.drop_suffix _ _
          · simp only [if_neg htrim]
            exact List.suffix_refl _
  · intro d0 calls
    induction calls generalizing d0 with
    | nil => intro h; exact h
    | cons c rest ih =>
      intro h
      exact ih _ (log_object_length_le d0 c.now c.object_name c.location_tag c.scene_desc h)

/-- Counterexample to C9 as stated: apple is logged at t=0, book at t=1, and
apple again at t=2 — although an apple entry from 2 seconds ago exists, the
third call still appends (history grows from 2 to 3 entries), because the
dedup check only looks at the most recent entry. -/
theorem C9_counterexample_nonadjacent_repeat :
    (runLog { history := [] }
      [{ now := 0, object_name := "apple", location_tag := none,
         scene_desc := "on the desk" },
       { now := 1, object_name := "book", location_tag := none,
         scene_desc := "on the desk" }]).history.length = 2
    ∧ (runLog { history := [] } c9_calls).history.length = 3 := by
  constructor <;>
    norm_num [runLog, log_object, c9_calls,
      show pyLower "apple" = "apple" from by decide,
      show pyLower "book" = "book" from by decide,
      show ¬ ("apple" = "") from by decide,
      show ¬ ("book" = "") from by decide,
      show ¬ ("apple" = "none") from by decide,
      show ¬ ("apple" = "unknown") from by decide,
      show ¬ ("apple" = "null") from by decide,
      show ¬ ("book" = "none") from by decide,
      show ¬ ("book" = "unknown") from by decide,
      show ¬ ("book" = "null") from by decide,
      show ¬ ("apple" = "book") from by decide,
      show ¬ ("book" = "apple") from by decide]

/-- Witness for C9: a repeat of "apple" 5 seconds after it was the most
recent entry appends nothing, and the three-call sequence stays within the
1000-entry cap. -/
theorem C9_witness :
    log_object { history := [⟨"apple", none, "s", 0⟩] } 5 "apple" none "s"
      = { history := [⟨"apple", none, "s", 0⟩] }
    ∧ (runLog { history := [] } c9_calls).history.length ≤ 1000 := by
  refine ⟨C9_dedup_last_and_cap.1 _ 5 "apple" none "s" ⟨"apple", none, "s", 0⟩
      rfl rfl (by norm_num),
    C9_dedup_last_and_cap.2.2.2 { history := [] } c9_calls (by norm_num)⟩

/-- A member of an ingest call's stable output is a stable entry value of
the resulting tracker map. -/
theorem mem_process_output (t : VisualTracker) (now : ℚ) (dets : List Detection)
    (o : TrackedObject) (ho : o ∈ (t.process_detections now dets).2) :
    o.is_stable = true
    ∧ ∃ p ∈ (t.process_detections now dets).1.tracked_objects, p.2 = o := by
  unfold VisualTracker.process_detections at ho ⊢
  rcases List.mem_filter.mp ho with ⟨hmem, hst⟩
  rcases List.mem_map.mp hmem with ⟨p, hp, rfl⟩
  exact ⟨hst, p, hp, rfl⟩

/-- Claim C4 (amended): an object is returned as stable only if its entry
has received at least two qualifying detection updates since it was created
(after any prune) — where two detections of the same name inside a single
ingest call each count; and an entry pruned after a 3-second absence that
reappears with a single detection is not returned as stable. -/
theorem C4_stable_needs_two_detections :
    (∀ (steps : List (ℚ × List Detection)) (now : ℚ) (dets : List Detection)
       (o : TrackedObject),
       o ∈ ((runTracker VisualTracker.init steps).process_detections now dets).2 →
       o.is_stable = true ∧ 2 ≤ o.frames_detected)
    ∧ ((VisualTracker.init.process_detections 0 [chairD 90 2]).1.process_detections 1
        [chairD 90 2]).2.map TrackedObject.name = ["chair"]
    ∧ (((VisualTracker.init.process_detections 0 [chairD 90 2]).1.process_detections 1
        [chairD 90 2]).1.process_detections 4 [chairD 90 2]).2 = [] := by
  refine ⟨?_, ?_, ?_⟩
  · intro steps now dets o ho
    have hinv : stable_inv (runTracker VisualTracker.init steps).tracked_objects :=
      stable_inv_run steps VisualTracker.init
        (by intro p hp; simp [VisualTracker.init] at hp)
    have hinv2 := stable_inv_process (runTracker VisualTracker.init steps) now dets hinv
    rcases mem_process_output _ now dets o ho with ⟨hst, p, hp, hpo⟩
    exact ⟨hst, by simpa [hpo] using hinv2 p hp (by rwa [hpo])⟩
  · norm_num [VisualTracker.process_detections, VisualTracker.init, applyDet, chairD,
      lookupAssoc, updateAssoc, TrackedObject.update,
      show pyLower "chair" = "chair" from by decide,
      show ¬ ("chair" = "") from by decide]
  · norm_num [VisualTracker.process_detections, VisualTracker.init, applyDet, chairD,
      lookupAssoc, updateAssoc, TrackedObject.update,
      show pyLower "chair" = "chair" from by decide,
      show ¬ ("chair" = "") from by decide]

/-- Counterexample to C4 as stated: two detections named "chair" inside ONE
ingest call make the object stable immediately — it is returned as stable
after a single ingest call, not after two distinct ones. -/
theorem C4_counterexample_single_call :
    (VisualTracker.init.process_detections 0 [chairD 90 2, chairD 90 2]).2.map
      TrackedObject.name = ["chair"]
    ∧ (VisualTracker.init.process_detections 0 [chairD 90 2, chairD 90 2]).2 ≠ [] := by
  constructor <;>
    norm_num [VisualTracker.process_detections, VisualTracker.init, applyDet, chairD,
      lookupAssoc, updateAssoc, TrackedObject.update,
      show pyLower "chair" = "chair" from by decide,
      show ¬ ("chair" = "") from by decide]

/-- Witness for C4: the chair seen in two successive ingest calls is stable
with exactly two recorded detections. -/
theorem C4_witness :
    chair_obj.is_stable = true ∧ 2 ≤ chair_obj.frames_detected := by
  refine C4_stable_needs_two_detections.1 [(0, [chairD 90 2])] 1 [chairD 90 2] chair_obj ?_
  norm_num [runTracker, VisualTracker.process_detections, VisualTracker.init, applyDet,
    chairD, chair_obj, lookupAssoc, updateAssoc, TrackedObject.update,
    show pyLower "chair" = "chair" from by decide,
    show ¬ ("chair" = "") from by decide]

/-- Witness for C10: the default tracker ingesting a lamp detection that has
no confidence key ends up tracking the lamp with confidence 100. -/
theorem C10_witness :
    ∃ o : TrackedObject,
      lookupAssoc (pyLower "lamp")
        ((VisualTracker.init.process_detections 0 [lampDet]).1.tracked_objects) = some o
      ∧ o.confidence = 100 :=
  C10_missing_confidence_defaults VisualTracker.init 0 lampDet rfl (by decide) rfl

end Netra
